import Mathlib

/-!
Shallow embedding of `src/main.py` (goit-cs-hw-06): an HTTP form server
(`do_GET`, `do_POST`, `serve_file`, `send_error` of `HTTPRequestHandler`)
and a TCP ingest server (`socket_server`) that persists messages to a
MongoDB collection.

Modelling conventions:
* The form body handed to `urllib.parse.parse_qs` is modelled after
  splitting on `&`/`=` and percent-decoding, as the ordered list of
  `(name, value)` occurrences; `parse_qs` itself (grouping, and its
  default `keep_blank_values=False` which discards occurrences whose
  value is blank) is embedded below.
* Network and datastore effects are oracle parameters: whether the
  outbound TCP connect/send raises (and with which error text), whether
  a Mongo connection attempt succeeds, whether an `insert_one` raises.
* JSON values are the inductive `PyJson`; the stdlib round trip
  `json.loads((json.dumps d).encode("utf-8"))` for a string-valued dict
  `d` is trusted to be the identity when the HTTP side's payload is
  delivered to the ingest side.
-/

namespace GoitCsHw06

/-- Configuration constants of `src/main.py` (lines 20-26). -/
def HTTP_PORT : Nat := 3000

def SOCKET_PORT : Nat := 5001

def FRONT_DIR : String := "front-init"

def MONGO_DB : String := "messages_db"

def MONGO_COLLECTION : String := "messages"

/-- One decoded `name=value` occurrence of the URL-encoded form body. -/
abbrev FormPair := String × String

/-- Embedding of `urllib.parse.parse_qs(body)[key]` restricted to one key:
the list of values bound to `key`, in order of appearance, with blank
values discarded (`keep_blank_values` defaults to `False`, so an
occurrence `key=` contributes nothing).  `parse_qs` contains `key` iff
this list is nonempty. -/
def parse_qs (pairs : List FormPair) (key : String) : List String :=
  (pairs.filter (fun p => p.1 == key && p.2 != "")).map Prod.snd

/-- Embedding of `form_data.get(key, [""])[0]` (src/main.py lines 62-63):
the first value `parse_qs` kept for `key`, or `""` when the key is absent
from the resulting dict. -/
def form_get (pairs : List FormPair) (key : String) : String :=
  (parse_qs pairs key).headD ""

/-- Body of a POST response: either a string written via `wfile.write`
(the 200/400/500 branches), or the 404 page delegated to `send_error`. -/
inductive PostBody where
  | text (s : String)
  | errorPage
deriving Repr, DecidableEq

/-- Observable outcome of `HTTPRequestHandler.do_POST`:
the HTTP status and body, whether an outbound TCP connection to the
ingest server was attempted, and the `(username, message)` payload that
was successfully handed to `send_to_socket_server` (if any). -/
structure PostResult where
  status : Nat
  body : PostBody
  attempted : Bool
  sent : Option (String × String)
deriving Repr, DecidableEq

/-- Embedding of `HTTPRequestHandler.do_POST` (src/main.py lines 52-85).
`path` is the path component of the request URL; `pairs` the decoded form
body; `net = none` means `send_to_socket_server` returns normally,
`net = some e` means it raises an exception whose `str()` is `e`. -/
def do_POST (path : String) (pairs : List FormPair) (net : Option String) :
    PostResult :=
  if path = "/message" then
    let username := form_get pairs "username"
    let message := form_get pairs "message"
    if username ≠ "" ∧ message ≠ "" then
      match net with
      | none => ⟨200, .text "Message sent successfully!", true, some (username, message)⟩
      | some e => ⟨500, .text ("Error: " ++ e), true, none⟩
    else
      ⟨400, .text "Username and message are required", false, none⟩
  else
    ⟨404, .errorPage, false, none⟩

/-! ## GET side: `do_GET`, `serve_file`, `send_error` -/

/-- The static directory (`front-init`) as a partial map from filename to
file content (a byte sequence); `none` models `os.path.exists` false. -/
abbrev FileSystem := String → Option (List Nat)

/-- Body of a GET/404 response: the bytes of a served file, or the
generic error page produced by `SimpleHTTPRequestHandler.send_error`
(whose exact markup the handler does not control). -/
inductive GetBody where
  | bytes (content : List Nat)
  | generic (code : Nat)
deriving Repr, DecidableEq

/-- Observable outcome of a GET request: status and body. -/
structure GetResult where
  status : Nat
  body : GetBody
deriving Repr, DecidableEq

/-- Embedding of the overridden `HTTPRequestHandler.send_error`
(src/main.py lines 115-128): a 404 is answered with the contents of
`front-init/error.html` when that file exists, otherwise (and for every
other code) it falls back to the superclass's generic error page. -/
def send_error (fs : FileSystem) (code : Nat) : GetResult :=
  if code = 404 then
    match fs "error.html" with
    | some content => ⟨404, .bytes content⟩
    | none => ⟨404, .generic 404⟩
  else
    ⟨code, .generic code⟩

/-- Embedding of `HTTPRequestHandler.serve_file` (src/main.py lines
103-113): 200 with the file's bytes when it exists, else `send_error 404`. -/
def serve_file (fs : FileSystem) (filename : String) : GetResult :=
  match fs filename with
  | some content => ⟨200, .bytes content⟩
  | none => send_error fs 404

/-- Embedding of `HTTPRequestHandler.do_GET` (src/main.py lines 35-50);
`path` is the path component of the parsed request URL. -/
def do_GET (fs : FileSystem) (path : String) : GetResult :=
  if path = "/" ∨ path = "/index.html" then serve_file fs "index.html"
  else if path = "/message.html" then serve_file fs "message.html"
  else if path = "/style.css" then serve_file fs "style.css"
  else if path = "/logo.png" then serve_file fs "logo.png"
  else send_error fs 404

/-! ## Ingest side: JSON values, document construction, accept loop -/

/-- Python values produced by `json.loads`. -/
inductive PyJson where
  | null
  | bool (b : Bool)
  | num (n : Int)
  | str (s : String)
  | arr (elems : List PyJson)
  | obj (fields : List (String × PyJson))

/-- Lookup in the Python dict built by `json.loads` from an object's
fields: a duplicated key keeps its last value. -/
def dictLookup (fields : List (String × PyJson)) (key : String) :
    Option PyJson :=
  fields.foldl (fun acc p => if p.1 == key then some p.2 else acc) none

/-- Embedding of `json_data.get(key, "")` on a dict. -/
def dictGetD (fields : List (String × PyJson)) (key : String) : PyJson :=
  (dictLookup fields key).getD (.str "")

/-- The broken-down value of `datetime.now()` at ingest time. -/
structure PyDateTime where
  year : Nat
  month : Nat
  day : Nat
  hour : Nat
  minute : Nat
  second : Nat
  microsecond : Nat
deriving Repr, DecidableEq

/-- The decimal digit character for `n % 10`-style values. -/
def digitChar (n : Nat) : Char := Char.ofNat (48 + n)

/-- Fixed-width decimal rendering (2 digits), as `strftime` zero-pads
`%m`, `%d`, `%H`, `%M`, `%S` for their in-range values. -/
def pad2 (n : Nat) : String :=
  String.mk [digitChar (n / 10 % 10), digitChar (n % 10)]

/-- Fixed-width decimal rendering (4 digits), as `strftime` renders `%Y`
for the years `datetime` supports (1 ≤ year ≤ 9999, zero-padded). -/
def pad4 (n : Nat) : String :=
  String.mk [digitChar (n / 1000 % 10), digitChar (n / 100 % 10),
    digitChar (n / 10 % 10), digitChar (n % 10)]

/-- Fixed-width decimal rendering (6 digits), as `strftime` renders `%f`. -/
def pad6 (n : Nat) : String :=
  String.mk [digitChar (n / 100000 % 10), digitChar (n / 10000 % 10),
    digitChar (n / 1000 % 10), digitChar (n / 100 % 10),
    digitChar (n / 10 % 10), digitChar (n % 10)]

/-- Embedding of `datetime.now().strftime("%Y-%m-%d %H:%M:%S.%f")`
(src/main.py line 193). -/
def strftimeTimestamp (t : PyDateTime) : String :=
  pad4 t.year ++ "-" ++ pad2 t.month ++ "-" ++ pad2 t.day ++ " " ++
    pad2 t.hour ++ ":" ++ pad2 t.minute ++ ":" ++ pad2 t.second ++ "." ++
    pad6 t.microsecond

/-- Checks that a string has the shape `YYYY-MM-DD HH:MM:SS.ffffff`
(microsecond precision): 26 characters, digits everywhere except the
fixed separators. -/
def isTimestampFormat (s : String) : Bool :=
  match s.toList with
  | [y1, y2, y3, y4, h1, mo1, mo2, h2, d1, d2, sp, hh1, hh2, c1, mi1, mi2,
      c2, s1, s2, dot, u1, u2, u3, u4, u5, u6] =>
    y1.isDigit && y2.isDigit && y3.isDigit && y4.isDigit &&
    h1 == '-' && mo1.isDigit && mo2.isDigit && h2 == '-' &&
    d1.isDigit && d2.isDigit && sp == ' ' &&
    hh1.isDigit && hh2.isDigit && c1 == ':' &&
    mi1.isDigit && mi2.isDigit && c2 == ':' &&
    s1.isDigit && s2.isDigit && dot == '.' &&
    u1.isDigit && u2.isDigit && u3.isDigit && u4.isDigit && u5.isDigit &&
    u6.isDigit
  | _ => false

/-- The document inserted by the ingest server (src/main.py lines
192-196): exactly the three fields `date`, `username`, `message`. -/
structure StoredRecord where
  date : String
  username : PyJson
  message : PyJson

/-- Embedding of the document construction for a successfully parsed
JSON object (src/main.py lines 188-196). -/
def makeDocument (now : PyDateTime) (fields : List (String × PyJson)) :
    StoredRecord :=
  { date := strftimeTimestamp now,
    username := dictGetD fields "username",
    message := dictGetD fields "message" }

/-- The environment of one accepted connection: whether `recv` raised
(caught only by the outer per-iteration handler, skipping `close`),
the result of `json.loads(data.decode("utf-8"))` (`none` models a
decode/parse exception), whether `insert_one` succeeds, and the value of
`datetime.now()` at handling time. -/
structure ConnInput where
  readError : Bool
  parsed : Option PyJson
  insertOk : Bool
  now : PyDateTime

/-- What handling one connection did: the documents inserted into the
collection (zero or one) and whether `client_socket.close()` ran. -/
structure ConnOutcome where
  inserts : List StoredRecord
  closed : Bool

/-- Embedding of one iteration body of the ingest accept loop
(src/main.py lines 174-207).  A `recv` error is caught by the outer
handler before `close`.  A parse failure hits the `json.JSONDecodeError`
branch: nothing inserted, connection closed.  A parsed non-object value
raises `AttributeError` at `json_data.get`, caught by the generic inner
`except Exception`: nothing inserted, connection closed.  For an object,
the three-field document is inserted unless `insert_one` raises. -/
def handleConnection (c : ConnInput) : ConnOutcome :=
  if c.readError then
    ⟨[], false⟩
  else
    match c.parsed with
    | none => ⟨[], true⟩
    | some (.obj fields) =>
        ⟨if c.insertOk then [makeDocument c.now fields] else [], true⟩
    | some _ => ⟨[], true⟩

/-- Embedding of the `while True` accept loop (src/main.py lines
172-210) run over a finite prefix of accepted connections: every
exception inside an iteration is caught by the outer `except`, so the
loop always proceeds to the next accept; the result is the sequence of
documents inserted. -/
def acceptLoop : List ConnInput → List StoredRecord
  | [] => []
  | c :: rest => (handleConnection c).inserts ++ acceptLoop rest

/-! ## End-to-end hand-off: HTTP handler → wire → ingest -/

/-- The JSON value the ingest side recovers from the bytes produced by
`send_to_socket_server` (src/main.py lines 87-101):
`json.loads(json.dumps({"username": u, "message": m}).encode("utf-8"))`
is the two-field object, by the stdlib round trip. -/
def wirePayload (u m : String) : PyJson :=
  .obj [("username", .str u), ("message", .str m)]

/-- One full `POST /message` interaction: the HTTP handler runs, and
when it successfully handed a payload to `send_to_socket_server`, the
ingest server handles the resulting connection with datastore outcome
`insertOk` at time `now`.  Returns the HTTP result and the documents
inserted into the collection. -/
def system_post (pairs : List FormPair) (net : Option String)
    (insertOk : Bool) (now : PyDateTime) : PostResult × List StoredRecord :=
  let r := do_POST "/message" pairs net
  match r.sent with
  | some (u, m) =>
      (r, (handleConnection ⟨false, some (wirePayload u m), insertOk, now⟩).inserts)
  | none => (r, [])

/-! ## Ingest-server startup: bounded Mongo retry loop -/

/-- Constant `max_retries` (src/main.py line 140). -/
def max_retries : Nat := 30

/-- Constant `retry_delay`, in seconds (src/main.py line 141). -/
def retry_delay : Nat := 1

/-- Observable trace of the startup retry loop: how many connection
attempts (each a `MongoClient` construction followed by the
`client.server_info()` liveness check) were made, how many seconds were
spent in `time.sleep(retry_delay)` calls between consecutive attempts,
and whether the loop ended connected. -/
structure StartupTrace where
  attempts : Nat
  sleepSeconds : Nat
  connected : Bool
deriving Repr, DecidableEq

/-- Embedding of the retry loop `for attempt in range(max_retries)`
(src/main.py lines 143-155).  `ok i` tells whether the `i`-th attempt's
`MongoClient(...)`+`server_info()` pair succeeds.  `fuel` counts the
remaining iterations of the `range`; the loop body sleeps `retry_delay`
seconds and retries after a failed attempt unless it was the last one
(`attempt < max_retries - 1` false), in which case the function returns. -/
def connectLoop (ok : Nat → Bool) : Nat → Nat → StartupTrace
  | _, 0 => ⟨0, 0, false⟩
  | attempt, fuel + 1 =>
    if ok attempt then ⟨1, 0, true⟩
    else if attempt < max_retries - 1 then
      let t := connectLoop ok (attempt + 1) fuel
      ⟨t.attempts + 1, t.sleepSeconds + retry_delay, t.connected⟩
    else ⟨1, 0, false⟩

/-- The whole startup gate of `socket_server` (src/main.py lines
139-159), starting at attempt 0 with the full `range(max_retries)`. -/
def socket_server_startup (ok : Nat → Bool) : StartupTrace :=
  connectLoop ok 0 max_retries

/-- Whether `socket_server` reaches the `server_socket.bind` call on the
ingest port (src/main.py line 168): it does exactly when the startup
gate ended connected, since both failure paths `return` first. -/
def socket_server_binds (ok : Nat → Bool) : Bool :=
  (socket_server_startup ok).connected

/-! ## Spec-side readings used by the claims -/

/-- The spec's reading of field extraction: the first occurrence of the
field wins, whatever its value; a missing field yields the empty string. -/
def firstValue (pairs : List FormPair) (key : String) : String :=
  ((pairs.find? (fun p => p.1 == key)).map Prod.snd).getD ""

/-- The amended reading: the first occurrence of the field with a
non-blank value wins (blank occurrences are discarded by `parse_qs`
before selection); a field that is missing, or all of whose occurrences
are blank, yields the empty string. -/
def firstNonBlankValue (pairs : List FormPair) (key : String) : String :=
  ((pairs.find? (fun p => p.1 == key && p.2 != "")).map Prod.snd).getD ""

/-! ## Helper lemmas -/

lemma digitChar_mod10_isDigit (n : Nat) : (digitChar (n % 10)).isDigit = true := by
  have hb : ∀ d, d < 10 → (digitChar d).isDigit = true := by decide
  exact hb _ (Nat.mod_lt _ (by decide))

lemma strftimeTimestamp_toList (t : PyDateTime) :
    (strftimeTimestamp t).toList =
      [digitChar (t.year / 1000 % 10), digitChar (t.year / 100 % 10),
        digitChar (t.year / 10 % 10), digitChar (t.year % 10), '-',
        digitChar (t.month / 10 % 10), digitChar (t.month % 10), '-',
        digitChar (t.day / 10 % 10), digitChar (t.day % 10), ' ',
        digitChar (t.hour / 10 % 10), digitChar (t.hour % 10), ':',
        digitChar (t.minute / 10 % 10), digitChar (t.minute % 10), ':',
        digitChar (t.second / 10 % 10), digitChar (t.second % 10), '.',
        digitChar (t.microsecond / 100000 % 10),
        digitChar (t.microsecond / 10000 % 10),
        digitChar (t.microsecond / 1000 % 10),
        digitChar (t.microsecond / 100 % 10),
        digitChar (t.microsecond / 10 % 10), digitChar (t.microsecond % 10)] :=
  rfl

lemma isTimestampFormat_strftime (t : PyDateTime) :
    isTimestampFormat (strftimeTimestamp t) = true := by
  unfold isTimestampFormat
  rw [strftimeTimestamp_toList]
  simp [digitChar_mod10_isDigit]

lemma connectLoop_attempts_le (ok : Nat → Bool) (a f : Nat) :
    (connectLoop ok a f).attempts ≤ f := by
  induction f generalizing a with
  | zero => simp [connectLoop]
  | succ f ih =>
    unfold connectLoop
    split
    · simp
    · split
      · simpa using Nat.succ_le_succ (ih (a + 1))
      · simp

lemma connectLoop_attempts_pos (ok : Nat → Bool) (a f : Nat) (hf : 0 < f) :
    1 ≤ (connectLoop ok a f).attempts := by
  obtain ⟨f, rfl⟩ := Nat.exists_eq_succ_of_ne_zero hf.ne'
  unfold connectLoop
  split
  · simp
  · split
    · simp
    · simp

lemma connectLoop_sleep (ok : Nat → Bool) (a f : Nat)
    (h : max_retries ≤ a + f) :
    (connectLoop ok a f).sleepSeconds =
      retry_delay * ((connectLoop ok a f).attempts - 1) := by
  induction f generalizing a with
  | zero => simp [connectLoop]
  | succ f ih =>
    unfold connectLoop
    split
    · simp
    · split
      · have hf : 0 < f := by
          unfold max_retries at *
          omega
        have hrec := ih (a + 1) (by omega)
        have hpos := connectLoop_attempts_pos ok (a + 1) f hf
        simp only []
        rw [hrec]
        unfold retry_delay
        omega
      · simp

lemma connectLoop_allFail (ok : Nat → Bool)
    (hfail : ∀ i, i < max_retries → ok i = false) (a f : Nat)
    (hsum : a + f = max_retries) (hf : 0 < f) :
    connectLoop ok a f = ⟨f, retry_delay * (f - 1), false⟩ := by
  induction f generalizing a with
  | zero => exact absurd hf (by simp)
  | succ f ih =>
    have hok : ok a = false := hfail a (by omega)
    unfold connectLoop
    rw [hok]
    simp only [Bool.false_eq_true, if_false]
    by_cases hlt : a < max_retries - 1
    · have hf' : 0 < f := by
        unfold max_retries at *
        omega
      rw [if_pos hlt, ih (a + 1) (by omega) hf']
      have : 1 ≤ f := hf'
      simp only [StartupTrace.mk.injEq]
      unfold retry_delay
      refine ⟨by trivial, by omega, by trivial⟩
    · have hf0 : f = 0 := by
        unfold max_retries at *
        omega
      rw [if_neg hlt]
      simp [hf0]

/-! ## Claim theorems -/

/-- C2: for every `POST /message` whose form body yields an empty (or
absent) `username` or an empty (or absent) `message`, the server
responds 400 with the fixed body "Username and message are required",
no outbound TCP connection to the ingest server is attempted, and no
payload is handed to `send_to_socket_server`. -/
theorem c2_missing_field_400 (pairs : List FormPair) (net : Option String)
    (h : form_get pairs "username" = "" ∨ form_get pairs "message" = "") :
    do_POST "/message" pairs net =
      ⟨400, .text "Username and message are required", false, none⟩ := by
  rcases h with h | h <;> simp [do_POST, h]

theorem c2_witness :
    do_POST "/message" [("username", ""), ("message", "hello")] none =
      ⟨400, .text "Username and message are required", false, none⟩ :=
  c2_missing_field_400 _ _ (Or.inl (by decide))

/-- C3: for every `POST /message` with both fields non-empty, when the
TCP connect/send to the ingest server raises an exception with text `e`,
the server responds 500 and the body is the string "Error: " followed by
the error text (so the body contains the underlying error text). -/
theorem c3_send_failure_500 (pairs : List FormPair) (e : String)
    (hu : form_get pairs "username" ≠ "") (hm : form_get pairs "message" ≠ "") :
    do_POST "/message" pairs (some e) =
      ⟨500, .text ("Error: " ++ e), true, none⟩ := by
  simp [do_POST, hu, hm]

theorem c3_witness :
    do_POST "/message" [("username", "alice"), ("message", "hi")]
        (some "Connection refused") =
      ⟨500, .text ("Error: " ++ "Connection refused"), true, none⟩ :=
  c3_send_failure_500 _ _ (by decide) (by decide)

/-- C8 counterexample: on the form body `username=&username=bob`, the
spec's "first value wins" reading yields the empty string, but the code
(`parse_qs` discards blank values) extracts "bob". -/
theorem c8_counterexample :
    firstValue [("username", ""), ("username", "bob")] "username" = "" ∧
    form_get [("username", ""), ("username", "bob")] "username" = "bob" := by
  constructor <;> rfl

/-- C8 amended: when decoding the `POST /message` form body, the first
occurrence of a field with a non-blank value wins (blank occurrences are
discarded by `parse_qs` before selection); a field that is missing, or
all of whose occurrences are blank, is treated as the empty string. -/
theorem c8_first_nonblank_wins (pairs : List FormPair) (key : String) :
    form_get pairs key = firstNonBlankValue pairs key := by
  induction pairs with
  | nil => rfl
  | cons p rest ih =>
    by_cases h : (p.1 == key && p.2 != "") = true
    · simp [form_get, parse_qs, firstNonBlankValue, List.filter_cons,
        List.find?_cons, h]
    · simp only [Bool.not_eq_true] at h
      simp only [form_get, parse_qs, firstNonBlankValue, List.filter_cons,
        List.find?_cons, h] at ih ⊢
      simp [h, ih]

/-- C9: HTTP response bodies never reflect user-supplied input: two
`POST /message` requests with non-empty fields, handled under the same
network outcome (hence taking the same success/failure branch), produce
identical response bodies and statuses, whatever the submitted values. -/
theorem c9_no_reflection (p1 p2 : List FormPair) (net : Option String)
    (h1u : form_get p1 "username" ≠ "") (h1m : form_get p1 "message" ≠ "")
    (h2u : form_get p2 "username" ≠ "") (h2m : form_get p2 "message" ≠ "") :
    (do_POST "/message" p1 net).body = (do_POST "/message" p2 net).body ∧
    (do_POST "/message" p1 net).status = (do_POST "/message" p2 net).status := by
  cases net <;> simp [do_POST, h1u, h1m, h2u, h2m]

theorem c9_witness :
    (do_POST "/message" [("username", "alice"), ("message", "hi")] none).body =
      (do_POST "/message" [("username", "bob"), ("message", "yo")] none).body ∧
    (do_POST "/message" [("username", "alice"), ("message", "hi")] none).status =
      (do_POST "/message" [("username", "bob"), ("message", "yo")] none).status :=
  c9_no_reflection _ _ _ (by decide) (by decide) (by decide) (by decide)

/-- C1: for every `POST /message` whose form body yields non-empty
`username` and `message`, when the ingest server is reachable (the
connect/send does not raise) and the datastore insert succeeds, the HTTP
server responds 200 and the ingest server inserts exactly one document,
whose `username` and `message` fields equal the submitted values. -/
theorem c1_valid_post_persists_one (pairs : List FormPair) (now : PyDateTime)
    (hu : form_get pairs "username" ≠ "") (hm : form_get pairs "message" ≠ "") :
    (system_post pairs none true now).1.status = 200 ∧
    (system_post pairs none true now).2 =
      [⟨strftimeTimestamp now, .str (form_get pairs "username"),
        .str (form_get pairs "message")⟩] := by
  simp [system_post, do_POST, hu, hm, handleConnection, wirePayload,
    makeDocument, dictGetD, dictLookup]

theorem c1_witness :
    (system_post [("username", "alice"), ("message", "hi")] none true
        ⟨2026, 10, 12, 1, 2, 3, 456789⟩).1.status = 200 ∧
    (system_post [("username", "alice"), ("message", "hi")] none true
        ⟨2026, 10, 12, 1, 2, 3, 456789⟩).2 =
      [⟨strftimeTimestamp ⟨2026, 10, 12, 1, 2, 3, 456789⟩,
        .str (form_get [("username", "alice"), ("message", "hi")] "username"),
        .str (form_get [("username", "alice"), ("message", "hi")] "message")⟩] :=
  c1_valid_post_persists_one _ _ (by decide) (by decide)

/-- C4: a GET to any of the five defined routes whose backing static
file exists answers 200 with the file's exact bytes; a GET to any other
path answers 404, with the contents of `error.html` when that file
exists in the static directory and the generic error page otherwise. -/
theorem c4_get_routing (fs : FileSystem) (path : String) :
    ((path = "/" ∨ path = "/index.html") →
      ∀ c, fs "index.html" = some c → do_GET fs path = ⟨200, .bytes c⟩) ∧
    (path = "/message.html" →
      ∀ c, fs "message.html" = some c → do_GET fs path = ⟨200, .bytes c⟩) ∧
    (path = "/style.css" →
      ∀ c, fs "style.css" = some c → do_GET fs path = ⟨200, .bytes c⟩) ∧
    (path = "/logo.png" →
      ∀ c, fs "logo.png" = some c → do_GET fs path = ⟨200, .bytes c⟩) ∧
    (¬(path = "/" ∨ path = "/index.html" ∨ path = "/message.html" ∨
        path = "/style.css" ∨ path = "/logo.png") →
      (∀ c, fs "error.html" = some c → do_GET fs path = ⟨404, .bytes c⟩) ∧
      (fs "error.html" = none → do_GET fs path = ⟨404, .generic 404⟩)) := by
  refine ⟨?_, ?_, ?_, ?_, ?_⟩
  · rintro (hp | hp) c hc <;> subst hp <;> simp [do_GET, serve_file, hc]
  · intro hp c hc; subst hp; simp [do_GET, serve_file, hc]
  · intro hp c hc; subst hp; simp [do_GET, serve_file, hc]
  · intro hp c hc; subst hp; simp [do_GET, serve_file, hc]
  · intro h
    push_neg at h
    obtain ⟨h1, h2, h3, h4, h5⟩ := h
    constructor
    · intro c hc
      simp [do_GET, h1, h2, h3, h4, h5, send_error, hc]
    · intro hc
      simp [do_GET, h1, h2, h3, h4, h5, send_error, hc]

theorem c4_witness :
    do_GET (fun f => if f = "index.html" then some [10, 20] else
        if f = "error.html" then some [44] else none) "/" =
      ⟨200, .bytes [10, 20]⟩ ∧
    do_GET (fun f => if f = "index.html" then some [10, 20] else
        if f = "error.html" then some [44] else none) "/nonexistent" =
      ⟨404, .bytes [44]⟩ :=
  ⟨(c4_get_routing _ _).1 (Or.inl rfl) _ rfl,
    ((c4_get_routing _ "/nonexistent").2.2.2.2 (by decide)).1 _ rfl⟩

/-- C5: the startup gate of `socket_server` makes at most `max_retries`
(30) datastore connection attempts, sleeps exactly `retry_delay` (1)
seconds between consecutive attempts (so total sleep is
`retry_delay * (attempts - 1)`), and when every attempt fails it makes
all 30 attempts, sleeps 29 seconds, ends unconnected, and returns
without ever binding the listening socket on the ingest port. -/
theorem c5_bounded_startup_retry (ok : Nat → Bool) :
    (socket_server_startup ok).attempts ≤ max_retries ∧
    (socket_server_startup ok).sleepSeconds =
      retry_delay * ((socket_server_startup ok).attempts - 1) ∧
    ((∀ i, i < max_retries → ok i = false) →
      socket_server_startup ok =
        ⟨max_retries, retry_delay * (max_retries - 1), false⟩ ∧
      socket_server_binds ok = false) := by
  refine ⟨connectLoop_attempts_le ok 0 max_retries,
    connectLoop_sleep ok 0 max_retries (by simp), ?_⟩
  intro hfail
  have h : socket_server_startup ok =
      ⟨max_retries, retry_delay * (max_retries - 1), false⟩ :=
    connectLoop_allFail ok hfail 0 max_retries (by simp) (by decide)
  exact ⟨h, by simp [socket_server_binds, h]⟩

theorem c5_witness :
    (socket_server_startup (fun _ => false)).attempts ≤ max_retries ∧
    (socket_server_startup (fun _ => false)).sleepSeconds =
      retry_delay * ((socket_server_startup (fun _ => false)).attempts - 1) ∧
    (socket_server_startup (fun _ => false) =
        ⟨max_retries, retry_delay * (max_retries - 1), false⟩ ∧
      socket_server_binds (fun _ => false) = false) :=
  ⟨(c5_bounded_startup_retry _).1, (c5_bounded_startup_retry _).2.1,
    (c5_bounded_startup_retry _).2.2 (by decide)⟩

/-- C6: a connection whose accumulated bytes fail to parse as UTF-8 JSON
leads to zero inserted documents, a closed connection, and an unchanged
remainder of the accept loop; and in general one iteration of the
accept loop never terminates it — the loop's result is always that
iteration's inserts followed by the loop over the remaining
connections, whatever exception the iteration raised internally. -/
theorem c6_parse_failure_isolation (c : ConnInput) (rest : List ConnInput) :
    (c.readError = false → c.parsed = none →
      (handleConnection c).inserts = [] ∧ (handleConnection c).closed = true ∧
      acceptLoop (c :: rest) = acceptLoop rest) ∧
    acceptLoop (c :: rest) = (handleConnection c).inserts ++ acceptLoop rest := by
  refine ⟨?_, rfl⟩
  intro hr hp
  have h : handleConnection c = ⟨[], true⟩ := by
    simp [handleConnection, hr, hp]
  exact ⟨by rw [h], by rw [h], by simp [acceptLoop, h]⟩

theorem c6_witness :
    (handleConnection ⟨false, none, true, ⟨2026, 1, 1, 0, 0, 0, 0⟩⟩).inserts = [] ∧
    (handleConnection ⟨false, none, true, ⟨2026, 1, 1, 0, 0, 0, 0⟩⟩).closed = true ∧
    acceptLoop [⟨false, none, true, ⟨2026, 1, 1, 0, 0, 0, 0⟩⟩] = acceptLoop [] :=
  (c6_parse_failure_isolation _ _).1 rfl rfl

/-- C7: every document the ingest server persists for a successfully
parsed JSON object has exactly the three fields `date`, `username`,
`message` (the `StoredRecord` type), where `date` is the ingest-time
timestamp in the fixed format `YYYY-MM-DD HH:MM:SS.ffffff` with
microsecond precision, and `username`/`message` default to the empty
string when absent from the payload. -/
theorem c7_document_shape (c : ConnInput) (fields : List (String × PyJson))
    (hr : c.readError = false) (hp : c.parsed = some (.obj fields))
    (hi : c.insertOk = true) :
    (handleConnection c).inserts =
      [⟨strftimeTimestamp c.now, dictGetD fields "username",
        dictGetD fields "message"⟩] ∧
    isTimestampFormat (strftimeTimestamp c.now) = true ∧
    (dictLookup fields "username" = none →
      dictGetD fields "username" = .str "") ∧
    (dictLookup fields "message" = none →
      dictGetD fields "message" = .str "") := by
  refine ⟨?_, isTimestampFormat_strftime c.now, ?_, ?_⟩
  · simp [handleConnection, hr, hp, hi, makeDocument]
  · intro h; simp [dictGetD, h]
  · intro h; simp [dictGetD, h]

theorem c7_witness :
    (handleConnection ⟨false,
        some (.obj [("username", .str "alice"), ("message", .str "hi")]), true,
        ⟨2026, 10, 12, 1, 2, 3, 456789⟩⟩).inserts =
      [⟨strftimeTimestamp ⟨2026, 10, 12, 1, 2, 3, 456789⟩,
        dictGetD [("username", .str "alice"), ("message", .str "hi")] "username",
        dictGetD [("username", .str "alice"), ("message", .str "hi")] "message"⟩] ∧
    isTimestampFormat (strftimeTimestamp ⟨2026, 10, 12, 1, 2, 3, 456789⟩) = true ∧
    (dictLookup [("username", .str "alice"), ("message", .str "hi")] "username" = none →
      dictGetD [("username", .str "alice"), ("message", .str "hi")] "username" = .str "") ∧
    (dictLookup [("username", .str "alice"), ("message", .str "hi")] "message" = none →
      dictGetD [("username", .str "alice"), ("message", .str "hi")] "message" = .str "") :=
  c7_document_shape _ _ rfl rfl rfl

/-- C10: a connection whose accumulated bytes parse as valid JSON that
is not a JSON object (array, string, number, boolean or null) leads to
zero inserted documents — the `AttributeError` raised by field
extraction is caught by the generic per-connection handler, the
connection is closed — and the accept loop continues unchanged over the
remaining connections. -/
theorem c10_nonobject_no_insert (c : ConnInput) (rest : List ConnInput)
    (j : PyJson) (hr : c.readError = false) (hp : c.parsed = some j)
    (hobj : ∀ fields, j ≠ .obj fields) :
    (handleConnection c).inserts = [] ∧ (handleConnection c).closed = true ∧
    acceptLoop (c :: rest) = acceptLoop rest := by
  have h : handleConnection c = ⟨[], true⟩ := by
    cases j with
    | obj fields => exact absurd rfl (hobj fields)
    | null => simp [handleConnection, hr, hp]
    | bool b => simp [handleConnection, hr, hp]
    | num n => simp [handleConnection, hr, hp]
    | str s => simp [handleConnection, hr, hp]
    | arr elems => simp [handleConnection, hr, hp]
  exact ⟨by rw [h], by rw [h], by simp [acceptLoop, h]⟩

theorem c10_witness :
    (handleConnection ⟨false, some (.arr []), true,
        ⟨2026, 1, 1, 0, 0, 0, 0⟩⟩).inserts = [] ∧
    (handleConnection ⟨false, some (.arr []), true,
        ⟨2026, 1, 1, 0, 0, 0, 0⟩⟩).closed = true ∧
    acceptLoop [⟨false, some (.arr []), true, ⟨2026, 1, 1, 0, 0, 0, 0⟩⟩] =
      acceptLoop [] :=
  c10_nonobject_no_insert _ _ (.arr []) rfl rfl (fun _ h => nomatch h)

end GoitCsHw06
